import Mathlib

set_option maxRecDepth 100000

/-!
Verification of the countdown/fireworks page against its specification.

Shallow embedding conventions:
* JS integer arithmetic on millisecond counts is modelled on `Int`;
  `Math.floor(a / b)` for an integer `a` and positive literal `b` is `Int.fdiv`
  (floor division) and the JS remainder operator `%` (sign of the dividend) is
  `Int.tmod`.
* Particle coordinates, speeds and opacities are modelled on `ℚ` (the source
  uses binary floating point; all claims under study are about the exact
  real-number kinematics the code transcribes).
* `Math.cos`/`Math.sin` of the launch angle are transcendental, so the unit
  direction vector is carried as explicit fields `dirX`/`dirY`; every concrete
  particle used in a theorem instantiates them with the exact values of
  `cos`/`sin` at its angle (axis-aligned or degenerate angles, where they are
  rational).
* Euclidean distances are compared through their squares: the source compares
  `sqrt q ≥ sqrt r`, which for nonnegative `q`, `r` is equivalent to `q ≥ r`.
* `Math.random()` draws are passed in as explicit parameters ranging over
  `[0, 1)`.
-/

/-! ## Countdown (src/unnamed/part_000, class `Countdown`) -/

structure TimeUnits where
  days : Int
  hours : Int
  minutes : Int
  seconds : Int
deriving DecidableEq, Repr

/-- Embedding of `Countdown.calculateTimeUnits`:
`seconds = Math.floor(diff / 1000)`, `minutes = Math.floor(seconds / 60)`,
`hours = Math.floor(minutes / 60)`, `days = Math.floor(hours / 24)`,
returning `{days, hours % 24, minutes % 60, seconds % 60}` with the JS
`%` operator (truncating remainder, `Int.tmod`). -/
def calculateTimeUnits (diff : Int) : TimeUnits :=
  let seconds := Int.fdiv diff 1000
  let minutes := Int.fdiv seconds 60
  let hours := Int.fdiv minutes 60
  let days := Int.fdiv hours 24
  { days := days
    hours := Int.tmod hours 24
    minutes := Int.tmod minutes 60
    seconds := Int.tmod seconds 60 }

/-- Embedding of `Countdown.getRemainingTime`: the difference
`targetDate - now` is fed to `calculateTimeUnits` directly, with no clamping
at zero. -/
def getRemainingTime (targetDate now : Int) : TimeUnits :=
  calculateTimeUnits (targetDate - now)

/-- On nonnegative input the floor divisions and truncating remainders of
`calculateTimeUnits` coincide with Euclidean division and remainder. -/
lemma calculateTimeUnits_eq_emod (d : Int) (hd : 0 ≤ d) :
    calculateTimeUnits d =
      { days := d / 1000 / 60 / 60 / 24
        hours := d / 1000 / 60 / 60 % 24
        minutes := d / 1000 / 60 % 60
        seconds := d / 1000 % 60 } := by
  have h1 : Int.fdiv d 1000 = d / 1000 := Int.fdiv_eq_ediv d (by norm_num)
  have hs : 0 ≤ d / 1000 := Int.ediv_nonneg hd (by norm_num)
  have h2 : Int.fdiv (d / 1000) 60 = d / 1000 / 60 :=
    Int.fdiv_eq_ediv _ (by norm_num)
  have hm : 0 ≤ d / 1000 / 60 := Int.ediv_nonneg hs (by norm_num)
  have h3 : Int.fdiv (d / 1000 / 60) 60 = d / 1000 / 60 / 60 :=
    Int.fdiv_eq_ediv _ (by norm_num)
  have hh : 0 ≤ d / 1000 / 60 / 60 := Int.ediv_nonneg hm (by norm_num)
  have h4 : Int.fdiv (d / 1000 / 60 / 60) 24 = d / 1000 / 60 / 60 / 24 :=
    Int.fdiv_eq_ediv _ (by norm_num)
  simp only [calculateTimeUnits, h1, h2, h3, h4,
    Int.tmod_eq_emod hh (by norm_num : (0 : Int) ≤ 24),
    Int.tmod_eq_emod hm (by norm_num : (0 : Int) ≤ 60),
    Int.tmod_eq_emod hs (by norm_num : (0 : Int) ≤ 60)]

/-- Range bounds and the division/remainder decomposition identity for
`calculateTimeUnits` on nonnegative durations. -/
lemma calculateTimeUnits_bounds (d : Int) (hd : 0 ≤ d) :
    (0 ≤ (calculateTimeUnits d).hours ∧ (calculateTimeUnits d).hours < 24) ∧
    (0 ≤ (calculateTimeUnits d).minutes ∧ (calculateTimeUnits d).minutes < 60) ∧
    (0 ≤ (calculateTimeUnits d).seconds ∧ (calculateTimeUnits d).seconds < 60) ∧
    (calculateTimeUnits d).days * 86400000 + (calculateTimeUnits d).hours * 3600000 +
      (calculateTimeUnits d).minutes * 60000 + (calculateTimeUnits d).seconds * 1000 ≤ d ∧
    d < (calculateTimeUnits d).days * 86400000 + (calculateTimeUnits d).hours * 3600000 +
      (calculateTimeUnits d).minutes * 60000 + (calculateTimeUnits d).seconds * 1000 + 1000 := by
  rw [calculateTimeUnits_eq_emod d hd]
  simp only
  omega

/-- Claim C1: for every nonnegative millisecond duration `d`,
`calculateTimeUnits d` has `0 ≤ hours < 24`, `0 ≤ minutes < 60`,
`0 ≤ seconds < 60`, and
`days*86400000 + hours*3600000 + minutes*60000 + seconds*1000 ≤ d <
 days*86400000 + hours*3600000 + minutes*60000 + seconds*1000 + 1000`;
in particular the decomposition of `0` is all-zero. -/
theorem calculateTimeUnits_correct (d : Int) (hd : 0 ≤ d) :
    ((0 ≤ (calculateTimeUnits d).hours ∧ (calculateTimeUnits d).hours < 24) ∧
     (0 ≤ (calculateTimeUnits d).minutes ∧ (calculateTimeUnits d).minutes < 60) ∧
     (0 ≤ (calculateTimeUnits d).seconds ∧ (calculateTimeUnits d).seconds < 60) ∧
     (calculateTimeUnits d).days * 86400000 + (calculateTimeUnits d).hours * 3600000 +
       (calculateTimeUnits d).minutes * 60000 + (calculateTimeUnits d).seconds * 1000 ≤ d ∧
     d < (calculateTimeUnits d).days * 86400000 + (calculateTimeUnits d).hours * 3600000 +
       (calculateTimeUnits d).minutes * 60000 + (calculateTimeUnits d).seconds * 1000 + 1000) ∧
    calculateTimeUnits 0 = ⟨0, 0, 0, 0⟩ :=
  ⟨calculateTimeUnits_bounds d hd, by decide⟩

/-- Witness for C1 at `d = 123456789`. -/
theorem calculateTimeUnits_correct_witness :
    ((0 ≤ (calculateTimeUnits 123456789).hours ∧ (calculateTimeUnits 123456789).hours < 24) ∧
     (0 ≤ (calculateTimeUnits 123456789).minutes ∧ (calculateTimeUnits 123456789).minutes < 60) ∧
     (0 ≤ (calculateTimeUnits 123456789).seconds ∧ (calculateTimeUnits 123456789).seconds < 60) ∧
     (calculateTimeUnits 123456789).days * 86400000 +
       (calculateTimeUnits 123456789).hours * 3600000 +
       (calculateTimeUnits 123456789).minutes * 60000 +
       (calculateTimeUnits 123456789).seconds * 1000 ≤ 123456789 ∧
     (123456789 : Int) < (calculateTimeUnits 123456789).days * 86400000 +
       (calculateTimeUnits 123456789).hours * 3600000 +
       (calculateTimeUnits 123456789).minutes * 60000 +
       (calculateTimeUnits 123456789).seconds * 1000 + 1000) ∧
    calculateTimeUnits 0 = ⟨0, 0, 0, 0⟩ :=
  calculateTimeUnits_correct 123456789 (by decide)

/-- Counterexample to Claim C2: `getRemainingTime` does not clamp the
difference at zero. At `targetDate = 0`, `now = 1500` the code returns
`{-1, -1, -1, -2}`, not the decomposition of `max(0, targetDate - now) = 0`
(which is all-zero). -/
theorem getRemainingTime_not_clamped_cex :
    getRemainingTime 0 1500 ≠ calculateTimeUnits (max (0 - 1500) 0) ∧
    getRemainingTime 0 1500 = ⟨-1, -1, -1, -2⟩ := by
  constructor
  · decide
  · decide

/-- Claim C2 (amended): `getRemainingTime` is the pure function
`calculateTimeUnits (targetDate - now)` — floor division by
1000/60/60/24 and remainder 60/60/24 — with no clamping at zero; whenever
`now ≤ targetDate` it therefore satisfies the full range/decomposition
property for the duration `targetDate - now` (the all-zero-after-target
behaviour claimed by the spec does not hold; see the counterexample). -/
theorem getRemainingTime_before_target (targetDate now : Int) (h : now ≤ targetDate) :
    getRemainingTime targetDate now = calculateTimeUnits (targetDate - now) ∧
    ((0 ≤ (getRemainingTime targetDate now).hours ∧
      (getRemainingTime targetDate now).hours < 24) ∧
     (0 ≤ (getRemainingTime targetDate now).minutes ∧
      (getRemainingTime targetDate now).minutes < 60) ∧
     (0 ≤ (getRemainingTime targetDate now).seconds ∧
      (getRemainingTime targetDate now).seconds < 60) ∧
     (getRemainingTime targetDate now).days * 86400000 +
       (getRemainingTime targetDate now).hours * 3600000 +
       (getRemainingTime targetDate now).minutes * 60000 +
       (getRemainingTime targetDate now).seconds * 1000 ≤ targetDate - now ∧
     targetDate - now < (getRemainingTime targetDate now).days * 86400000 +
       (getRemainingTime targetDate now).hours * 3600000 +
       (getRemainingTime targetDate now).minutes * 60000 +
       (getRemainingTime targetDate now).seconds * 1000 + 1000) :=
  ⟨rfl, calculateTimeUnits_bounds (targetDate - now) (by omega)⟩

/-- Witness for the amended C2 at `targetDate = 10^9`, `now = 10^6`. -/
theorem getRemainingTime_before_target_witness :
    getRemainingTime 1000000000 1000000 =
      calculateTimeUnits (1000000000 - 1000000) ∧
    ((0 ≤ (getRemainingTime 1000000000 1000000).hours ∧
      (getRemainingTime 1000000000 1000000).hours < 24) ∧
     (0 ≤ (getRemainingTime 1000000000 1000000).minutes ∧
      (getRemainingTime 1000000000 1000000).minutes < 60) ∧
     (0 ≤ (getRemainingTime 1000000000 1000000).seconds ∧
      (getRemainingTime 1000000000 1000000).seconds < 60) ∧
     (getRemainingTime 1000000000 1000000).days * 86400000 +
       (getRemainingTime 1000000000 1000000).hours * 3600000 +
       (getRemainingTime 1000000000 1000000).minutes * 60000 +
       (getRemainingTime 1000000000 1000000).seconds * 1000 ≤ 1000000000 - 1000000 ∧
     (1000000000 : Int) - 1000000 < (getRemainingTime 1000000000 1000000).days * 86400000 +
       (getRemainingTime 1000000000 1000000).hours * 3600000 +
       (getRemainingTime 1000000000 1000000).minutes * 60000 +
       (getRemainingTime 1000000000 1000000).seconds * 1000 + 1000) :=
  getRemainingTime_before_target 1000000000 1000000 (by decide)

/-! ### Countdown control state

The interval mechanics of `Countdown.start` / `Countdown.update` /
`Countdown.stop`.  State: whether `this.intervalId` is set, how many times
`handleNewYear` has run, and whether the countdown text elements were found
by `cacheElements` (the transitions never consult the latter — faithfully to
the source, which starts its interval without any element check; the later
DOM writes in `updateDisplay`/`showCongratulations` are each individually
null-guarded and are not modelled).  The wall-clock difference
`targetDate - now` observed by an `update` call is passed in as `diff`. -/

structure CountdownState where
  intervalId : Bool
  fired : Nat
  elementsPresent : Bool
deriving DecidableEq, Repr

/-- Embedding of `Countdown.update`: if `diff ≤ 0` it calls `handleNewYear`,
which runs `stop()` (clearing the interval if one is set) and counts one
terminal-event firing; otherwise it only updates the display (not modelled:
no control-state change). -/
def Countdown.update (diff : Int) (s : CountdownState) : CountdownState :=
  if diff ≤ 0 then { s with intervalId := false, fired := s.fired + 1 }
  else s

/-- Embedding of `Countdown.start`: no-op when an interval is already set;
otherwise it first runs `update()` synchronously and only then assigns
`this.intervalId = setInterval(...)`. -/
def Countdown.start (diff : Int) (s : CountdownState) : CountdownState :=
  if s.intervalId then s
  else { Countdown.update diff s with intervalId := true }

/-- One firing of the `setInterval` callback: runs `update` while the
interval is set. -/
def Countdown.tick (diff : Int) (s : CountdownState) : CountdownState :=
  if s.intervalId then Countdown.update diff s else s

/-- Claim C3 (code bug): starting the countdown when the target has already
passed (`diff ≤ 0`, here `diff = -5`) fires `handleNewYear` during the
synchronous first `update` — at which point `this.intervalId` is still null,
so the `stop()` inside `handleNewYear` clears nothing — then `start` installs
the interval anyway, and the first interval tick fires `handleNewYear` a
second time.  The terminal event is signalled twice, not exactly once. -/
theorem countdown_double_fire :
    (Countdown.tick (-5) (Countdown.start (-5) ⟨false, 0, true⟩)).fired = 2 ∧
    (Countdown.start (-5) ⟨false, 0, true⟩).intervalId = true ∧
    (Countdown.start (-5) ⟨false, 0, true⟩).fired = 1 := by
  constructor
  · decide
  · constructor
    · decide
    · decide

/-! ## FireworkParticle (src/js/core/App.js, class `FireworkParticle`) -/

/-- A palette entry: hue/saturation pair. -/
structure Color where
  hue : Nat
  saturation : Nat
deriving DecidableEq, Repr

/-- The fixed 16-entry color palette from the `Fireworks` defaults. -/
def colorsPalette : List Color :=
  [⟨0, 100⟩, ⟨15, 100⟩, ⟨30, 100⟩, ⟨45, 100⟩, ⟨60, 100⟩, ⟨120, 100⟩,
   ⟨180, 100⟩, ⟨200, 100⟩, ⟨240, 100⟩, ⟨270, 80⟩, ⟨300, 80⟩, ⟨330, 80⟩,
   ⟨50, 100⟩, ⟨220, 30⟩, ⟨40, 90⟩, ⟨150, 70⟩]

/-- State of one rising firework particle.  `dirX`/`dirY` carry the values of
`Math.cos(angle)`/`Math.sin(angle)` for the fixed angle
`atan2(targetY - startY, targetX - startX)` computed in `initialize()`. -/
structure FwParticle where
  x : ℚ
  y : ℚ
  startX : ℚ
  startY : ℚ
  targetX : ℚ
  targetY : ℚ
  dirX : ℚ
  dirY : ℚ
  speed : ℚ
  acceleration : ℚ
  brightness : ℚ
  color : Color
  coordinates : List (ℚ × ℚ)
deriving DecidableEq, Repr

/-- Embedding of the `FireworkParticle` constructor plus `initialize()`:
position and launch at `(x1, y1)`, target `(x2, y2)`, a trail of three copies
of the start position, `speed = 2`, `acceleration = 1.02`,
`brightness = Math.floor(r * 20) + 70`. -/
def FireworkParticle.mk' (x1 y1 x2 y2 dX dY rBright : ℚ) (c : Color) : FwParticle :=
  { x := x1, y := y1, startX := x1, startY := y1, targetX := x2, targetY := y2
    dirX := dX, dirY := dY, speed := 2, acceleration := 51 / 50
    brightness := ((⌊rBright * 20⌋ : Int) : ℚ) + 70, color := c
    coordinates := [(x1, y1), (x1, y1), (x1, y1)] }

/-- Squared launch-to-target distance (`calculateDistance()` returns its
square root, stored in `this.distance`). -/
def FwParticle.distSq (p : FwParticle) : ℚ :=
  (p.targetX - p.startX) ^ 2 + (p.targetY - p.startY) ^ 2

/-- Squared distance traveled from the launch point (`this.currentDistance`
is its square root). -/
def FwParticle.currentDistSq (p : FwParticle) : ℚ :=
  (p.x - p.startX) ^ 2 + (p.y - p.startY) ^ 2

/-- The state mutation performed by `FireworkParticle.update()`: shift the
trail, multiply the speed by the acceleration, add the velocity to the
position. -/
def FwParticle.step (p : FwParticle) : FwParticle :=
  let speed := p.speed * p.acceleration
  { p with coordinates := (p.x, p.y) :: p.coordinates.dropLast
           speed := speed
           x := p.x + p.dirX * speed
           y := p.y + p.dirY * speed }

/-- The Boolean returned by `update()`: post-step traveled distance at least
the launch-to-target distance, compared on squares (`sqrt` is monotone on
nonnegative arguments, so the comparison is equivalent to the source's). -/
def FwParticle.stepDone (p : FwParticle) : Bool :=
  decide (p.distSq ≤ p.step.currentDistSq)

/-- Embedding of `Fireworks.updateFireworks()`: every live projectile is
drawn and stepped; those whose `update()` returned `true` are spliced out and
yield their post-step position and color as an explosion origin.  The
backward index loop with splice removal preserves the relative order of the
survivors, which this recursion reproduces; the second component collects the
exploded projectiles. -/
def stepFireworksList : List FwParticle → List FwParticle × List FwParticle
  | [] => ([], [])
  | p :: rest =>
    let r := stepFireworksList rest
    if p.stepDone then (r.1, p.step :: r.2) else (p.step :: r.1, r.2)

/-- The projectile of Claim C7: launch `(0,0)`, target `(0,100)`.  Its angle
is `atan2(100, 0) = π/2`, whose cosine and sine are exactly `0` and `1`. -/
def p7 : FwParticle := FireworkParticle.mk' 0 0 0 100 0 1 0 ⟨0, 100⟩

/-- Counterexample to Claim C7's first conjunct: after tick 1 the traveled
distance of `p7` is `2.04 = 2 * 1.02` (the squared distance is `(51/25)^2`),
not `2`: `update()` multiplies the speed by the acceleration before the
first move. -/
theorem projectile_first_tick_cex :
    FwParticle.currentDistSq (FwParticle.step p7) = (51 / 25) ^ 2 ∧
    FwParticle.currentDistSq (FwParticle.step p7) ≠ 2 ^ 2 := by
  constructor
  · simp only [p7, FireworkParticle.mk', FwParticle.step, FwParticle.currentDistSq]
    norm_num
  · simp only [p7, FireworkParticle.mk', FwParticle.step, FwParticle.currentDistSq]
    norm_num

/-- Partial sums of the per-tick speeds `v*a, v*a^2, …, v*a^k` — the distance
along the launch ray covered after `k` updates. -/
def speedSum (v a : ℚ) : Nat → ℚ
  | 0 => 0
  | k + 1 => speedSum v a k + v * a ^ (k + 1)

lemma step_iterate (p : FwParticle) (hx : p.x = p.startX) (hy : p.y = p.startY)
    (k : Nat) :
    (FwParticle.step^[k] p).x = p.startX + p.dirX * speedSum p.speed p.acceleration k ∧
    (FwParticle.step^[k] p).y = p.startY + p.dirY * speedSum p.speed p.acceleration k ∧
    (FwParticle.step^[k] p).speed = p.speed * p.acceleration ^ k ∧
    (FwParticle.step^[k] p).startX = p.startX ∧
    (FwParticle.step^[k] p).startY = p.startY ∧
    (FwParticle.step^[k] p).dirX = p.dirX ∧
    (FwParticle.step^[k] p).dirY = p.dirY ∧
    (FwParticle.step^[k] p).acceleration = p.acceleration := by
  induction k with
  | zero => simp [speedSum, hx, hy]
  | succ k ih =>
    obtain ⟨ihx, ihy, ihs, ihsx, ihsy, ihdx, ihdy, iha⟩ := ih
    simp only [Function.iterate_succ_apply', FwParticle.step, speedSum]
    refine ⟨?_, ?_, ?_, ihsx, ihsy, ihdx, ihdy, iha⟩
    · rw [ihx, ihdx, ihs, iha]; ring
    · rw [ihy, ihdy, ihs, iha]; ring
    · rw [ihs, iha]; ring

lemma speedSum_nonneg (v a : ℚ) (hv : 0 < v) (ha : 0 < a) (k : Nat) :
    0 ≤ speedSum v a k := by
  induction k with
  | zero => simp [speedSum]
  | succ k ih =>
    have : 0 < v * a ^ (k + 1) := mul_pos hv (pow_pos ha (k + 1))
    simp only [speedSum]
    linarith

lemma speedSum_lt_succ (v a : ℚ) (hv : 0 < v) (ha : 0 < a) (k : Nat) :
    speedSum v a k < speedSum v a (k + 1) := by
  have : 0 < v * a ^ (k + 1) := mul_pos hv (pow_pos ha (k + 1))
  simp only [speedSum]
  linarith

/-- Closed form of the geometric partial sums (for `a ≠ 1`). -/
lemma speedSum_closed (v a : ℚ) (ha : a ≠ 1) (n : Nat) :
    speedSum v a n = v * a * (a ^ n - 1) / (a - 1) := by
  have hne : a - 1 ≠ 0 := sub_ne_zero.mpr ha
  induction n with
  | zero => simp [speedSum]
  | succ n ih =>
    rw [speedSum, ih]
    field_simp
    ring

lemma currentDistSq_iterate (p : FwParticle) (hx : p.x = p.startX)
    (hy : p.y = p.startY) (hdir : p.dirX ^ 2 + p.dirY ^ 2 = 1) (k : Nat) :
    (FwParticle.step^[k] p).currentDistSq =
      speedSum p.speed p.acceleration k ^ 2 := by
  obtain ⟨hx', hy', -, hsx, hsy, -, -, -⟩ := step_iterate p hx hy k
  rw [FwParticle.currentDistSq, hx', hy', hsx, hsy]
  have expand : (p.startX + p.dirX * speedSum p.speed p.acceleration k - p.startX) ^ 2 +
      (p.startY + p.dirY * speedSum p.speed p.acceleration k - p.startY) ^ 2 =
      (p.dirX ^ 2 + p.dirY ^ 2) * speedSum p.speed p.acceleration k ^ 2 := by ring
  rw [expand, hdir, one_mul]

/-- `step` does not touch the four immutable endpoint fields, so the
launch-to-target distance is invariant. -/
lemma distSq_iterate (p : FwParticle) (k : Nat) :
    (FwParticle.step^[k] p).distSq = p.distSq := by
  induction k with
  | zero => rfl
  | succ k ih => rw [Function.iterate_succ_apply', ← ih]; rfl

/-- The Boolean returned by the `(k+1)`-st `update()` of a projectile that
starts at its launch point with a unit direction vector, characterised by the
distance covered along the ray. -/
lemma stepDone_iterate (p : FwParticle) (hx : p.x = p.startX) (hy : p.y = p.startY)
    (hdir : p.dirX ^ 2 + p.dirY ^ 2 = 1) (k : Nat) :
    (FwParticle.stepDone (FwParticle.step^[k] p) = true ↔
      p.distSq ≤ speedSum p.speed p.acceleration (k + 1) ^ 2) := by
  rw [FwParticle.stepDone, decide_eq_true_iff, distSq_iterate p k,
    ← Function.iterate_succ_apply' FwParticle.step k p,
    currentDistSq_iterate p hx hy hdir (k + 1)]

/-- Claim C7 (amended): for the projectile `p7` (launch `(0,0)`, target
`(0,100)`, acceleration `1.02`, initial speed `2`) the traveled distance
after tick 1 equals its first-tick velocity magnitude `2.04 = 2 * 1.02` (not
`2`: `update()` multiplies the speed by the acceleration before the first
move); for every projectile starting at its launch point with a unit
direction vector and the constructor's fixed `speed = 2`,
`acceleration = 1.02`, the traveled distance is strictly increasing tick
over tick; and `p7`'s terminal condition (`currentDistance ≥ distance`) is
met first at exactly tick 35 — a finite, deterministic tick count. -/
theorem projectile_kinematics :
    FwParticle.currentDistSq (FwParticle.step p7) = (2 * (51 / 50)) ^ 2 ∧
    (∀ p : FwParticle, p.x = p.startX → p.y = p.startY →
        p.dirX ^ 2 + p.dirY ^ 2 = 1 → p.speed = 2 → p.acceleration = 51 / 50 →
        ∀ k : Nat, (FwParticle.step^[k] p).currentDistSq <
          (FwParticle.step^[k + 1] p).currentDistSq) ∧
    FwParticle.stepDone (FwParticle.step^[33] p7) = false ∧
    FwParticle.stepDone (FwParticle.step^[34] p7) = true := by
  have hdir7 : p7.dirX ^ 2 + p7.dirY ^ 2 = 1 := by
    simp [p7, FireworkParticle.mk']
  have hdist : p7.distSq = 10000 := by
    simp only [p7, FireworkParticle.mk', FwParticle.distSq]
    norm_num
  have hconv34 : speedSum p7.speed p7.acceleration 34 = speedSum 2 (51 / 50) 34 := rfl
  have hconv35 : speedSum p7.speed p7.acceleration 35 = speedSum 2 (51 / 50) 35 := rfl
  refine ⟨?_, ?_, ?_, ?_⟩
  · simp only [p7, FireworkParticle.mk', FwParticle.step, FwParticle.currentDistSq]
    norm_num
  · intro p hx hy hdir hv ha k
    have hv' : 0 < p.speed := by rw [hv]; norm_num
    have ha' : 0 < p.acceleration := by rw [ha]; norm_num
    rw [currentDistSq_iterate p hx hy hdir k, currentDistSq_iterate p hx hy hdir (k + 1)]
    have h0 : 0 ≤ speedSum p.speed p.acceleration k := speedSum_nonneg _ _ hv' ha' k
    have h1 : speedSum p.speed p.acceleration k < speedSum p.speed p.acceleration (k + 1) :=
      speedSum_lt_succ _ _ hv' ha' k
    nlinarith
  · refine Bool.eq_false_iff.mpr ?_
    intro htrue
    have h := (stepDone_iterate p7 rfl rfl hdir7 33).mp htrue
    rw [hdist, hconv34] at h
    have hS : speedSum 2 ((51 : ℚ) / 50) 34 =
        2 * (51 / 50) * ((51 / 50) ^ 34 - 1) / (51 / 50 - 1) :=
      speedSum_closed 2 (51 / 50) (by norm_num) 34
    have hlt : speedSum 2 ((51 : ℚ) / 50) 34 < 100 := by rw [hS]; norm_num
    have hge : 0 ≤ speedSum 2 ((51 : ℚ) / 50) 34 :=
      speedSum_nonneg 2 (51 / 50) (by norm_num) (by norm_num) 34
    nlinarith
  · refine (stepDone_iterate p7 rfl rfl hdir7 34).mpr ?_
    rw [hdist, hconv35]
    have hS : speedSum 2 ((51 : ℚ) / 50) 35 =
        2 * (51 / 50) * ((51 / 50) ^ 35 - 1) / (51 / 50 - 1) :=
      speedSum_closed 2 (51 / 50) (by norm_num) 35
    have h100 : (100 : ℚ) ≤ speedSum 2 ((51 : ℚ) / 50) 35 := by rw [hS]; norm_num
    nlinarith

/-- Witness for C7's universally quantified part at `p7`, tick `0 < 1`. -/
theorem projectile_kinematics_witness :
    (FwParticle.step^[0] p7).currentDistSq < (FwParticle.step^[0 + 1] p7).currentDistSq :=
  projectile_kinematics.2.1 p7 rfl rfl (by simp [p7, FireworkParticle.mk']) rfl rfl 0

/-- Claim C8: a projectile whose launch and target positions coincide has
launch-to-target distance `0`, so the comparison returned by its first
`update()` (`currentDistance ≥ distance`, on squares here) is already true —
the terminal condition holds at tick 1 — and `updateFireworks` removes it
from the live list in that same tick.  The tick's arithmetic is total: the
source evaluates `Math.atan2(0, 0) = 0` (defined in JS, not `NaN`),
`cos`/`sin`/multiplications/additions, and a square root of a nonnegative
number; no division occurs anywhere in `update()`. -/
theorem degenerate_projectile (p : FwParticle)
    (hx : p.startX = p.targetX) (hy : p.startY = p.targetY) :
    FwParticle.stepDone p = true ∧ (stepFireworksList [p]).1 = [] := by
  have hd : p.distSq = 0 := by simp [FwParticle.distSq, hx, hy]
  have hdone : FwParticle.stepDone p = true := by
    rw [FwParticle.stepDone, decide_eq_true_iff, hd]
    have h1 : 0 ≤ (p.step.x - p.step.startX) ^ 2 := sq_nonneg _
    have h2 : 0 ≤ (p.step.y - p.step.startY) ^ 2 := sq_nonneg _
    rw [FwParticle.currentDistSq]
    linarith
  refine ⟨hdone, ?_⟩
  simp [stepFireworksList, hdone]

/-- Witness for C8: the degenerate projectile launched at its own target
`(100, 200)`; its angle is `atan2(0, 0) = 0`, with cosine `1` and sine `0`. -/
theorem degenerate_projectile_witness :
    FwParticle.stepDone (FireworkParticle.mk' 100 200 100 200 1 0 0 ⟨0, 100⟩) = true ∧
    (stepFireworksList [FireworkParticle.mk' 100 200 100 200 1 0 0 ⟨0, 100⟩]).1 = [] :=
  degenerate_projectile (FireworkParticle.mk' 100 200 100 200 1 0 0 ⟨0, 100⟩) rfl rfl

/-! ## ExplosionParticle (src/js/core/App.js, class `ExplosionParticle`) -/

/-- State of one explosion point.  `dirX`/`dirY` carry the values of
`Math.cos(angle)`/`Math.sin(angle)` for the fixed random angle
`Math.random() * 2π` drawn in `initialize()`. -/
structure ExpParticle where
  x : ℚ
  y : ℚ
  dirX : ℚ
  dirY : ℚ
  speed : ℚ
  friction : ℚ
  gravity : ℚ
  brightness : ℚ
  alpha : ℚ
  decay : ℚ
  color : Color
  coordinates : List (ℚ × ℚ)
deriving DecidableEq, Repr

/-- Embedding of the `ExplosionParticle` constructor plus `initialize()`,
with the `Math.random()` draws passed explicitly: a trail of five copies of
the start position, `speed = rSpeed * 9 + 1`, `friction = 0.95`,
`gravity = 0.6`, `brightness = Math.floor(rBright * 25) + 70`,
`alpha = rAlpha * 0.1 + 0.9`, `decay = rDecay * 0.015 + 0.01`. -/
def ExplosionParticle.init (x y dX dY rSpeed rBright rAlpha rDecay : ℚ)
    (c : Color) : ExpParticle :=
  { x := x, y := y, dirX := dX, dirY := dY
    speed := rSpeed * 9 + 1, friction := 19 / 20, gravity := 3 / 5
    brightness := ((⌊rBright * 25⌋ : Int) : ℚ) + 70
    alpha := rAlpha * (1 / 10) + 9 / 10
    decay := rDecay * (3 / 200) + 1 / 100
    color := c
    coordinates := [(x, y), (x, y), (x, y), (x, y), (x, y)] }

/-- The state mutation of `ExplosionParticle.update()`: shift the trail,
multiply the speed by the friction, add the velocity to the position (with
gravity added to the vertical component), subtract the decay from the
opacity. -/
def ExpParticle.step (p : ExpParticle) : ExpParticle :=
  let speed := p.speed * p.friction
  { p with coordinates := (p.x, p.y) :: p.coordinates.dropLast
           speed := speed
           x := p.x + p.dirX * speed
           y := p.y + p.dirY * speed + p.gravity
           alpha := p.alpha - p.decay }

/-- The Boolean returned by `update()`: post-step opacity at most `0.01`. -/
def ExpParticle.stepDone (p : ExpParticle) : Bool :=
  decide (p.step.alpha ≤ 1 / 100)

/-- Embedding of `Fireworks.updateParticles()`: every live explosion point is
drawn and stepped; those whose `update()` returned `true` are spliced out. -/
def stepParticlesList : List ExpParticle → List ExpParticle
  | [] => []
  | p :: rest =>
    if p.stepDone then stepParticlesList rest else p.step :: stepParticlesList rest

lemma expStep_alpha_iterate (p : ExpParticle) (k : Nat) :
    (ExpParticle.step^[k] p).alpha = p.alpha - k * p.decay ∧
    (ExpParticle.step^[k] p).decay = p.decay := by
  induction k with
  | zero => simp
  | succ k ih =>
    obtain ⟨ia, idk⟩ := ih
    simp only [Function.iterate_succ_apply', ExpParticle.step]
    refine ⟨?_, idk⟩
    rw [ia, idk]
    push_cast
    ring

/-- The Boolean returned by the `(k+1)`-st `update()` of an explosion point,
characterised by the linear opacity decay. -/
lemma expStepDone_iterate (p : ExpParticle) (k : Nat) :
    (ExpParticle.stepDone (ExpParticle.step^[k] p) = true ↔
      p.alpha - (k + 1) * p.decay ≤ 1 / 100) := by
  rw [ExpParticle.stepDone, decide_eq_true_iff,
    ← Function.iterate_succ_apply' ExpParticle.step k p,
    (expStep_alpha_iterate p (k + 1)).1]
  push_cast
  ring_nf

/-- Claim C9: an explosion point with fixed decay rate `r = decay ≥ 0` has
opacity exactly `initialOpacity - k * decay` after `k` ticks, hence
monotonically non-increasing opacity; and its `update()` reports removal at
tick `k + 1` precisely when the opacity after `k + 1` ticks has fallen to
`≤ 0.01` — i.e. removal happens at exactly the first such tick. -/
theorem explosion_opacity (p : ExpParticle) (hdecay : 0 ≤ p.decay) (k : Nat) :
    (ExpParticle.step^[k] p).alpha = p.alpha - k * p.decay ∧
    (ExpParticle.step^[k + 1] p).alpha ≤ (ExpParticle.step^[k] p).alpha ∧
    (ExpParticle.stepDone (ExpParticle.step^[k] p) = true ↔
      p.alpha - (k + 1) * p.decay ≤ 1 / 100) := by
  refine ⟨(expStep_alpha_iterate p k).1, ?_, expStepDone_iterate p k⟩
  rw [(expStep_alpha_iterate p k).1, (expStep_alpha_iterate p (k + 1)).1]
  push_cast
  nlinarith

/-- Witness for C9: the explosion point at the origin with direction `(1,0)`
(angle `0`), the random draws all zero (`speed = 1`, `alpha = 0.9`,
`decay = 0.01`), at `k = 3`. -/
theorem explosion_opacity_witness :
    (ExpParticle.step^[3] (ExplosionParticle.init 0 0 1 0 0 0 0 0 ⟨0, 100⟩)).alpha =
      (ExplosionParticle.init 0 0 1 0 0 0 0 0 ⟨0, 100⟩).alpha -
        3 * (ExplosionParticle.init 0 0 1 0 0 0 0 0 ⟨0, 100⟩).decay ∧
    (ExpParticle.step^[3 + 1] (ExplosionParticle.init 0 0 1 0 0 0 0 0 ⟨0, 100⟩)).alpha ≤
      (ExpParticle.step^[3] (ExplosionParticle.init 0 0 1 0 0 0 0 0 ⟨0, 100⟩)).alpha ∧
    (ExpParticle.stepDone
        (ExpParticle.step^[3] (ExplosionParticle.init 0 0 1 0 0 0 0 0 ⟨0, 100⟩)) = true ↔
      (ExplosionParticle.init 0 0 1 0 0 0 0 0 ⟨0, 100⟩).alpha -
        (3 + 1) * (ExplosionParticle.init 0 0 1 0 0 0 0 0 ⟨0, 100⟩).decay ≤ 1 / 100) :=
  explosion_opacity (ExplosionParticle.init 0 0 1 0 0 0 0 0 ⟨0, 100⟩)
    (by simp [ExplosionParticle.init]) 3

/-- Claim C10: every explosion point produced by `initialize()` — initial
opacity `rAlpha * 0.1 + 0.9 < 1` and decay `rDecay * 0.015 + 0.01 ≥ 0.01`
for any random draws `rAlpha < 1`, `0 ≤ rDecay`, and any angle and speed —
has its `update()` report removal within at most 99 ticks. -/
theorem explosion_bounded_termination
    (x y dX dY rSpeed rBright rAlpha rDecay : ℚ) (c : Color)
    (hA : rAlpha < 1) (hD : 0 ≤ rDecay) :
    ∃ k : Nat, 1 ≤ k ∧ k ≤ 99 ∧
      ExpParticle.stepDone (ExpParticle.step^[k - 1]
        (ExplosionParticle.init x y dX dY rSpeed rBright rAlpha rDecay c)) = true := by
  refine ⟨99, by norm_num, le_refl 99, ?_⟩
  rw [expStepDone_iterate]
  have halpha : (ExplosionParticle.init x y dX dY rSpeed rBright rAlpha rDecay c).alpha =
      rAlpha * (1 / 10) + 9 / 10 := rfl
  have hdecay : (ExplosionParticle.init x y dX dY rSpeed rBright rAlpha rDecay c).decay =
      rDecay * (3 / 200) + 1 / 100 := rfl
  rw [halpha, hdecay]
  push_cast
  nlinarith

/-- Witness for C10 at the origin with direction `(1,0)` and all random
draws zero. -/
theorem explosion_bounded_termination_witness :
    ∃ k : Nat, 1 ≤ k ∧ k ≤ 99 ∧
      ExpParticle.stepDone (ExpParticle.step^[k - 1]
        (ExplosionParticle.init 0 0 1 0 0 0 0 0 ⟨0, 100⟩)) = true :=
  explosion_bounded_termination 0 0 1 0 0 0 0 0 ⟨0, 100⟩ (by decide) (by decide)

/-! ## Fireworks system (src/js/core/App.js, class `Fireworks`) -/

/-- Default `particleCount` (explosion points per burst). -/
def particleCount : Nat := 120

/-- Default `simultaneousFireworks` (target concurrent projectile count). -/
def simultaneousFireworks : Nat := 8

/-- Default `fireworksPerBurst` (projectiles per spawn event). -/
def fireworksPerBurst : Nat := 8

/-- Control state of the `Fireworks` system.  `hasCtx` records whether
`initializeCanvas` found the canvas (`this.ctx` non-null); `chains` counts
the pending `requestAnimationFrame` callbacks (active tick chains);
`pendingSpawns` counts the `setTimeout` spawn callbacks scheduled by
`spawnBurst` and not yet fired. -/
structure FireworksState where
  hasCtx : Bool
  isRunning : Bool
  fireworks : List FwParticle
  particles : List ExpParticle
  chains : Nat
  pendingSpawns : Nat
deriving DecidableEq, Repr

/-- Embedding of `Fireworks.createParticles`: `particleCount` new explosion
points at the explosion origin.  In the source each is
`new ExplosionParticle(x, y, ctx, color)` with fresh `Math.random()` draws;
the sampler `mk` supplies the `i`-th such particle. -/
def createParticles (mk : ℚ → ℚ → Color → Nat → ExpParticle) (x y : ℚ)
    (c : Color) : List ExpParticle :=
  (List.range particleCount).map (mk x y c)

/-- The synchronous body of `Fireworks.loop()` when the drawing context is
present: return unchanged if not running (the guard precedes everything);
otherwise clear the canvas (pure drawing, not modelled), advance and splice
the projectile list — each exploded projectile contributing `particleCount`
explosion points, which `updateParticles` then advances in this same tick —
run `autoSpawn` (which only schedules deferred `spawnFirework` timeouts),
and request the next animation frame. -/
def Fireworks.loopRun (mk : ℚ → ℚ → Color → Nat → ExpParticle)
    (s : FireworksState) : FireworksState :=
  if s.isRunning then
    let r := stepFireworksList s.fireworks
    let created := r.2.foldr (fun q acc => createParticles mk q.x q.y q.color ++ acc) []
    let parts := stepParticlesList (s.particles ++ created)
    let needed :=
      if r.1.length < simultaneousFireworks then
        min (simultaneousFireworks - r.1.length) fireworksPerBurst
      else 0
    { s with fireworks := r.1, particles := parts
             pendingSpawns := s.pendingSpawns + needed
             chains := s.chains + 1 }
  else s

/-- `Fireworks.loop()` as called without a context guarantee: when running,
its first statement `this.ctx.clearRect(...)` dereferences the context, so a
missing context faults (error outcome); when not running it returns before
touching the context. -/
def Fireworks.loopCall (mk : ℚ → ℚ → Color → Nat → ExpParticle)
    (s : FireworksState) : Except Unit FireworksState :=
  if s.isRunning && !s.hasCtx then Except.error ()
  else Except.ok (Fireworks.loopRun mk s)

/-- Embedding of `Fireworks.start()`: guarded no-op when already running or
when the context is missing (`if (this.isRunning || !this.ctx) return`);
otherwise set the running flag, clear both collections, and run `loop()`
synchronously (the guard guarantees the context is present there, so
`loopRun` is exact). -/
def Fireworks.start (mk : ℚ → ℚ → Color → Nat → ExpParticle)
    (s : FireworksState) : FireworksState :=
  if s.isRunning || !s.hasCtx then s
  else Fireworks.loopRun mk { s with isRunning := true, fireworks := [], particles := [] }

/-- Embedding of `Fireworks.resume()`: `if (!this.isRunning) { this.isRunning
= true; this.loop(); }` — no context guard. -/
def Fireworks.resume (mk : ℚ → ℚ → Color → Nat → ExpParticle)
    (s : FireworksState) : Except Unit FireworksState :=
  if s.isRunning then Except.ok s
  else Fireworks.loopCall mk { s with isRunning := true }

/-- A concrete explosion-point sampler for witnesses: direction `(1,0)` and
all random draws zero. -/
def mkSample : ℚ → ℚ → Color → Nat → ExpParticle :=
  fun x y c _ => ExplosionParticle.init x y 1 0 0 0 0 0 c

/-- A quiescent `Fireworks` state whose canvas was not found. -/
def fwNoCtx : FireworksState := ⟨false, false, [], [], 0, 0⟩

/-- A quiescent `Fireworks` state with the canvas present. -/
def fwFresh : FireworksState := ⟨true, false, [], [], 0, 0⟩

/-- Claim C5: `Fireworks.start()` from a non-running state with the context
present clears both live collections and begins ticking — afterwards the
projectile and explosion-point lists are empty (auto-spawn only schedules
deferred timeouts), the running flag is set, and from a quiescent state
(no pending frame) exactly one animation-frame chain is active; `start()`
when already running is a no-op, and `start` is idempotent outright, so a
second `start()` without an intervening `stop()` leaves exactly one tick
chain and produces no more projectiles than a single `start()`. -/
theorem fireworks_start_idempotent (mk : ℚ → ℚ → Color → Nat → ExpParticle)
    (s : FireworksState) :
    (s.isRunning = false → s.hasCtx = true →
      (Fireworks.start mk s).fireworks = [] ∧
      (Fireworks.start mk s).particles = [] ∧
      (Fireworks.start mk s).isRunning = true ∧
      (s.chains = 0 → (Fireworks.start mk s).chains = 1)) ∧
    (s.isRunning = true → Fireworks.start mk s = s) ∧
    Fireworks.start mk (Fireworks.start mk s) = Fireworks.start mk s := by
  cases hr : s.isRunning <;> cases hc : s.hasCtx <;>
    simp_all [Fireworks.start, Fireworks.loopRun, stepFireworksList,
      stepParticlesList, createParticles, particleCount, simultaneousFireworks,
      fireworksPerBurst]

/-- Witness for C5 at the sampler `mkSample` and the fresh state
`fwFresh`. -/
theorem fireworks_start_idempotent_witness :
    (Fireworks.start mkSample fwFresh).fireworks = [] ∧
    (Fireworks.start mkSample fwFresh).chains = 1 ∧
    Fireworks.start mkSample (Fireworks.start mkSample fwFresh) =
      Fireworks.start mkSample fwFresh :=
  ⟨((fireworks_start_idempotent mkSample fwFresh).1 rfl rfl).1,
   ((fireworks_start_idempotent mkSample fwFresh).1 rfl rfl).2.2.2 rfl,
   (fireworks_start_idempotent mkSample fwFresh).2.2⟩

/-- Counterexample to Claim C4, at concrete quiescent states with the
drawing targets missing: (a) with the canvas absent, `Fireworks.resume()` is
not guarded — it sets the running flag and enters `loop()`, whose first
statement dereferences the null context (the error outcome); (b) the
`Countdown` performs no initialization check for missing text elements —
`start()` installs its interval regardless, so a tick loop does start. -/
theorem missing_surface_cex :
    Fireworks.resume mkSample fwNoCtx = Except.error () ∧
    (Countdown.start 5 ⟨false, 0, false⟩).intervalId = true := by
  constructor
  · rfl
  · decide

/-- Claim C4 (amended): with the fireworks canvas missing,
`initializeCanvas` logs the condition and leaves the context null, and
`start()` is then permanently inert (state unchanged, no loop starts);
`resume()`, however, has no context guard and dereferences the missing
context inside `loop()`.  The `Countdown` does not detect missing text
elements at initialization: `start()` installs its interval unconditionally
(each later DOM write is individually null-guarded in
`updateDisplay`/`showCongratulations`, so no dereference occurs there, but
the tick loop does start). -/
theorem missing_surface_behavior :
    (∀ (mk : ℚ → ℚ → Color → Nat → ExpParticle) (s : FireworksState),
      s.hasCtx = false → Fireworks.start mk s = s) ∧
    (∀ (mk : ℚ → ℚ → Color → Nat → ExpParticle) (s : FireworksState),
      s.hasCtx = false → s.isRunning = false →
      Fireworks.resume mk s = Except.error ()) ∧
    (∀ (d : Int) (st : CountdownState), st.intervalId = false →
      (Countdown.start d st).intervalId = true) := by
  refine ⟨?_, ?_, ?_⟩
  · intro mk s h
    simp [Fireworks.start, h]
  · intro mk s h hr
    simp [Fireworks.resume, Fireworks.loopCall, h, hr]
  · intro d st h
    simp [Countdown.start, Countdown.update, h]

/-- Witness for the amended C4 at `fwNoCtx` and a countdown state with
missing elements. -/
theorem missing_surface_behavior_witness :
    Fireworks.start mkSample fwNoCtx = fwNoCtx ∧
    Fireworks.resume mkSample fwNoCtx = Except.error () ∧
    (Countdown.start 5 ⟨false, 0, false⟩).intervalId = true :=
  ⟨missing_surface_behavior.1 mkSample fwNoCtx rfl,
   missing_surface_behavior.2.1 mkSample fwNoCtx rfl rfl,
   missing_surface_behavior.2.2 5 ⟨false, 0, false⟩ rfl⟩

/-- JS `v || d` for an optional numeric argument: an absent (`undefined`)
argument and the number `0` are both falsy and select the default. -/
def jsOrNum (v : Option ℚ) (d : ℚ) : ℚ :=
  match v with
  | none => d
  | some n => if n = 0 then d else n

/-- `Fireworks.randomRange(min, max)` = `Math.random() * (max - min) + min`,
with the draw `r` passed explicitly. -/
def randomRange (r lo hi : ℚ) : ℚ := r * (hi - lo) + lo

/-- `Fireworks.getRandomColor()`:
`colors[Math.floor(Math.random() * colors.length)]`. -/
def getRandomColor (r : ℚ) : Color :=
  colorsPalette.getD (⌊r * (colorsPalette.length : ℚ)⌋).toNat ⟨0, 100⟩

/-- Embedding of `Fireworks.spawnFirework(x, y, color)`: launch point
`(randomRange(150, width - 150), height + 30)`, target
`x || randomRange(100, width - 100)` and `y || randomRange(150, height*0.5)`
(JS-falsy defaulting), color defaulted only when `null` (a color object is
always truthy), and exactly one new `FireworkParticle` pushed onto the live
list.  `dX`/`dY` carry the cosine/sine of the new particle's angle. -/
def Fireworks.spawnFirework (w h rS rTx rTy rC dX dY rB : ℚ)
    (x y : Option ℚ) (color : Option Color)
    (fireworks : List FwParticle) : List FwParticle :=
  let startX := randomRange rS 150 (w - 150)
  let startY := h + 30
  let targetX := jsOrNum x (randomRange rTx 100 (w - 100))
  let targetY := jsOrNum y (randomRange rTy 150 (h * (1 / 2)))
  let c := color.getD (getRandomColor rC)
  fireworks ++ [FireworkParticle.mk' startX startY targetX targetY dX dY rB c]

/-- Counterexample to Claim C6: the supplied target coordinate `0` is a
falsy JS value, so `targetX = x || randomRange(...)` discards it.  With
canvas `800 × 600` and the target-x draw `rTx = 0`, calling
`spawnFirework(0, 300)` produces a particle whose `targetX` is `100`, not
the supplied `0`. -/
theorem spawnFirework_zero_coordinate_cex :
    ((Fireworks.spawnFirework 800 600 0 0 0 0 0 1 0 (some 0) (some 300) none []).map
        (fun p => p.targetX)) = [100] ∧ (100 : ℚ) ≠ 0 := by
  constructor
  · simp only [Fireworks.spawnFirework, jsOrNum, randomRange, FireworkParticle.mk',
      List.nil_append, List.map_cons, List.map_nil]
    norm_num
  · norm_num

/-- Claim C6 (amended): every `spawnFirework(targetX, targetY, color)` call
appends exactly one new projectile to the live collection; its launch point
has `startY = height + 30` (just below the bottom edge) and horizontal
position within `[150, width - 150]` for any draw in `[0, 1)` (width at
least 300); its target equals the given coordinates whenever they are
supplied *and nonzero* (a supplied `0` is falsy and is replaced by a random
draw — see the counterexample); and its color equals the given color
whenever one is supplied. -/
theorem spawnFirework_correct (w h rS rTx rTy rC dX dY rB : ℚ)
    (vx vy : ℚ) (c : Color) (fws : List FwParticle)
    (hr0 : 0 ≤ rS) (hr1 : rS < 1) (hw : 300 ≤ w)
    (hvx : vx ≠ 0) (hvy : vy ≠ 0) :
    ∃ p : FwParticle,
      Fireworks.spawnFirework w h rS rTx rTy rC dX dY rB
          (some vx) (some vy) (some c) fws = fws ++ [p] ∧
      (Fireworks.spawnFirework w h rS rTx rTy rC dX dY rB
          (some vx) (some vy) (some c) fws).length = fws.length + 1 ∧
      150 ≤ p.startX ∧ p.startX ≤ w - 150 ∧ p.startY = h + 30 ∧
      p.targetX = vx ∧ p.targetY = vy ∧ p.color = c := by
  have hb1 : 150 ≤ randomRange rS 150 (w - 150) := by
    rw [randomRange]
    nlinarith [mul_nonneg hr0 (show (0 : ℚ) ≤ w - 150 - 150 by linarith)]
  have hb2 : randomRange rS 150 (w - 150) ≤ w - 150 := by
    rw [randomRange]
    nlinarith [mul_nonneg (show (0 : ℚ) ≤ 1 - rS by linarith)
      (show (0 : ℚ) ≤ w - 150 - 150 by linarith)]
  refine ⟨FireworkParticle.mk' (randomRange rS 150 (w - 150)) (h + 30) vx vy dX dY rB c,
    ?_, ?_, hb1, hb2, rfl, rfl, rfl, rfl⟩
  · simp [Fireworks.spawnFirework, jsOrNum, hvx, hvy]
  · simp [Fireworks.spawnFirework]

/-- Witness for the amended C6: canvas `800 × 600`, launch draw `0`, target
`(400, 300)`, explicit color. -/
theorem spawnFirework_correct_witness :
    ∃ p : FwParticle,
      Fireworks.spawnFirework 800 600 0 0 0 0 0 1 0
          (some 400) (some 300) (some ⟨120, 100⟩) [] = [] ++ [p] ∧
      (Fireworks.spawnFirework 800 600 0 0 0 0 0 1 0
          (some 400) (some 300) (some ⟨120, 100⟩) []).length = List.length ([] : List FwParticle) + 1 ∧
      150 ≤ p.startX ∧ p.startX ≤ 800 - 150 ∧ p.startY = 600 + 30 ∧
      p.targetX = 400 ∧ p.targetY = 300 ∧ p.color = ⟨120, 100⟩ :=
  spawnFirework_correct 800 600 0 0 0 0 0 1 0 400 300 ⟨120, 100⟩ []
    (by decide) (by decide) (by decide) (by decide) (by decide)
